import Mathlib

/-!
Shallow embedding of the sqlite-viewer-vscode extension host code
(`src/sqliteEditor.ts`, `src/util.ts`, and the licensing module), together
with theorems checking the natural-language specification against it.

Conventions used throughout:
* file contents are `Bytes` (a list of byte values);
* `vsc.Uri` is modelled by its `scheme` and `path`, with `toStringU` and
  `parseU` playing the roles of `Uri.prototype.toString` and `Uri.parse`;
* the workspace file system is a partial map from URI strings to contents;
* `Promise` rejection / thrown errors are `Except String`;
* JavaScript `undefined`/`null` data is `Option`.
-/

namespace SqliteViewer

/-- File contents: a list of byte values. -/
abbrev Bytes := List Nat

/-- Model of `vsc.Uri`: only the components the extension host reads. -/
structure Uri where
  scheme : String
  path : String
deriving DecidableEq, Repr

/-- Model of `Uri.prototype.toString()`: `scheme://path` (authority is folded
into `path`, matching the `file:///...` URIs the extension works with). -/
def toStringU (u : Uri) : String :=
  u.scheme ++ "://" ++ u.path

/-- Splits a character list at the first occurrence of `"://"`, returning the
part before and the part after. -/
def splitSchemeAux : List Char → Option (List Char × List Char)
  | [] => none
  | c :: rest =>
    if c = ':' ∧ rest.take 2 = ['/', '/'] then some ([], rest.drop 2)
    else (splitSchemeAux rest).map (fun p => (c :: p.1, p.2))

/-- Model of `vsc.Uri.parse`: split the string at the first `"://"`. -/
def parseU (s : String) : Uri :=
  match splitSchemeAux s.toList with
  | some (a, b) => ⟨String.mk a, String.mk b⟩
  | none => ⟨"", s⟩

/-- The workspace file system (`vsc.workspace.fs`): URI string → contents.
`stat` succeeds exactly on the keys in the map, and `size` is the length. -/
abbrev FS := String → Option Bytes

/-- Overwriting write (`vsc.workspace.fs.writeFile`). -/
def writeFS (fs : FS) (key : String) (v : Bytes) : FS :=
  fun k => if k = key then some v else fs k

/-- The `sqliteViewer.maxFileSize` setting: `config.get<number>('maxFileSize')`
may be absent, hence `Option Nat` (the unit is megabytes). -/
abbrev MaxFileSizeConfig := Option Nat

/-- Embedding of `SQLiteDocument.getConfiguredMaxFileSize`:
`(config.get('maxFileSize') ?? 200) * 2 ** 20`. -/
def getConfiguredMaxFileSize (cfg : MaxFileSizeConfig) : Nat :=
  (cfg.getD 200) * 2 ^ 20

/-- Model of a `SQLiteDocument`: its URI and `_documentData` pair. -/
structure SQLiteDocument where
  uri : Uri
  documentData : Option Bytes
  walData : Option Bytes
deriving DecidableEq, Repr

namespace SQLiteDocument

/-- Embedding of the static `SQLiteDocument.readFile`: untitled URIs yield an
empty buffer; otherwise the file is stat-ed, rejected as `[null, null]` when
the configured ceiling is nonzero and exceeded, and otherwise read together
with its optional `-wal` sibling. A missing file makes `stat` reject. -/
def readFile (cfg : MaxFileSizeConfig) (fs : FS) (uri : Uri) :
    Except String (Option Bytes × Option Bytes) :=
  if uri.scheme = "untitled" then .ok (some [], none)
  else
    let maxFileSize := getConfiguredMaxFileSize cfg
    let walUri : Uri := { uri with path := uri.path ++ "-wal" }
    match fs (toStringU uri) with
    | none => .error "ENOENT"
    | some content =>
      if maxFileSize ≠ 0 ∧ content.length > maxFileSize then .ok (none, none)
      else .ok (some content, fs (toStringU walUri))

/-- Embedding of `SQLiteDocument.create`: read from the backup location when a
`backupId` is present, otherwise from the document's own URI; the resulting
document keeps the originally passed URI. -/
def create (cfg : MaxFileSizeConfig) (fs : FS) (uri : Uri)
    (backupId : Option String) : Except String SQLiteDocument :=
  let dataFile := match backupId with | some id => parseU id | none => uri
  (readFile cfg fs dataFile).map fun d => ⟨uri, d.1, d.2⟩

end SQLiteDocument

/-- Splits a character list around its last dot: `s = b ++ '.' :: e` with no
dot in `e`. Building block for the `pathRegExp` groups of `uriParts`. -/
def lastDotSplit : List Char → Option (List Char × List Char)
  | [] => none
  | c :: rest =>
    match lastDotSplit rest with
    | some (b, e) => some (c :: b, e)
    | none => if c = '.' then some ([], rest) else none

/-- Whether a string matches the filename part of `pathRegExp`, namely
`(?<basename>.*)(?<extname>\.[^.]+)$`: it has a dot that is not its last
character. -/
def filenameMatches (s : List Char) : Bool :=
  match lastDotSplit s with
  | some (_, e) => decide (e ≠ [])
  | none => false

/-- Splits at the last slash whose suffix matches the filename pattern,
mirroring the greedy `(?<dirname>.*)\/` of `pathRegExp`. -/
def dirSplit : List Char → Option (List Char × List Char)
  | [] => none
  | c :: rest =>
    match dirSplit rest with
    | some (d, f) => some (c :: d, f)
    | none => if c = '/' ∧ filenameMatches rest then some ([], rest) else none

/-- The four named groups of `pathRegExp`; all absent when the regular
expression does not match (the `?? {}` fallback in the getter). -/
structure UriParts where
  dirname : Option String
  filename : Option String
  basename : Option String
  extname : Option String
deriving DecidableEq, Repr

/-- Embedding of the `uriParts` getter: match
`/(?<dirname>.*)\/(?<filename>(?<basename>.*)(?<extname>\.[^.]+))$/` against
`this._uri.toString()`. -/
def uriParts (u : Uri) : UriParts :=
  match dirSplit (toStringU u).toList with
  | some (d, f) =>
    match lastDotSplit f with
    | some (b, e) =>
      ⟨some (String.mk d), some (String.mk f), some (String.mk b),
       some (String.mk ('.' :: e))⟩
    | none => ⟨none, none, none, none⟩
  | none => ⟨none, none, none, none⟩

/-- The `{ filename, value, walValue }` record built by `getTransferables`
(the buffer-disassembly wrapper is transparent here: `value` is the bytes). -/
structure Transferables where
  filename : Option String
  value : Bytes
  walValue : Option Bytes
deriving DecidableEq, Repr

/-- Embedding of `getTransferables(document, documentData)`. -/
def getTransferables (doc : SQLiteDocument) (documentData : Bytes) :
    Transferables :=
  ⟨(uriParts doc.uri).filename, documentData, doc.walData⟩

/-- The error message thrown when a document has no data
(`const TooLargeErrorMsg` in the source). -/
def TooLargeErrorMsg : String :=
  "File too large. You can increase this limit in the settings under " ++
  "'Sqlite Viewer: Max File Size'."

/-- The webview registry contents of `WebviewCollection`: a list of
`(resource, webviewPanel)` entries, panels identified by numbers. -/
abbrev Registry := List (String × Nat)

/-- Embedding of `WebviewCollection.get(uri)`: the panels of all entries whose
resource equals `uri.toString()`. -/
def webviewsGet (st : Registry) (uri : Uri) : List Nat :=
  (st.filter (fun e => e.1 == toStringU uri)).map (fun e => e.2)

/-- Embedding of `WebviewCollection.has(uri)`. -/
def webviewsHas (st : Registry) (uri : Uri) : Bool :=
  !(webviewsGet st uri).isEmpty

/-- The payload `getInitialData`/`refreshFile` return when the document has
data. -/
structure FilePayload where
  filename : Option String
  value : Bytes
  walValue : Option Bytes
  editable : Bool
  maxFileSize : Nat
deriving DecidableEq, Repr

/-- Possible outcomes of `VscodeFns.getInitialData`. -/
inductive InitialDataResult
  /-- The guard `this.#webviews.has(document.uri)` failed: `undefined`. -/
  | noWebview
  /-- The untitled branch: `{ filename: 'untitled', untitled: true,
  editable: false, maxFileSize }`. -/
  | untitledPayload (filename : String) (editable : Bool) (maxFileSize : Nat)
  /-- The data branch: the transferred payload. -/
  | payload (p : FilePayload)
  /-- The `throw Error(TooLargeErrorMsg)` fallthrough. -/
  | thrown (msg : String)
deriving DecidableEq, Repr

/-- Embedding of `VscodeFns.getInitialData` (the telemetry call is a pure
no-op here). -/
def getInitialData (st : Registry) (cfg : MaxFileSizeConfig)
    (doc : SQLiteDocument) : InitialDataResult :=
  if webviewsHas st doc.uri then
    if doc.uri.scheme = "untitled" then
      .untitledPayload "untitled" false (getConfiguredMaxFileSize cfg)
    else
      match doc.documentData with
      | some data =>
        let t := getTransferables doc data
        .payload ⟨t.filename, t.value, t.walValue, false,
                  getConfiguredMaxFileSize cfg⟩
      | none => .thrown TooLargeErrorMsg
  else .noWebview

namespace SQLiteDocument

/-- Embedding of `SQLiteDocument.refresh`: re-read the file, replace
`_documentData`, and fire `onDidChangeContent` (returned as the optional
`(content, walContent)` of the fired event) only when the data is non-null. -/
def refresh (cfg : MaxFileSizeConfig) (fs : FS) (doc : SQLiteDocument) :
    Except String (SQLiteDocument × Option (Bytes × Option Bytes)) :=
  (readFile cfg fs doc.uri).map fun dc =>
    ({ doc with documentData := dc.1, walData := dc.2 },
     match dc.1 with
     | some c => some (c, dc.2)
     | none => none)

end SQLiteDocument

/-- Possible outcomes of `VscodeFns.refreshFile`. -/
inductive RefreshFileResult
  /-- Untitled documents skip the whole body: `undefined`. -/
  | untitledNoop
  /-- The data branch: the transferred payload. -/
  | payload (p : FilePayload)
  /-- The `throw Error(TooLargeErrorMsg)` fallthrough. -/
  | thrown (msg : String)
  /-- `document.refresh()` itself rejected (the file could not be stat-ed). -/
  | readError (e : String)
deriving DecidableEq, Repr

/-- Embedding of `VscodeFns.refreshFile`, returning both the outcome and the
document as mutated by `refresh`. -/
def refreshFile (cfg : MaxFileSizeConfig) (fs : FS) (doc : SQLiteDocument) :
    RefreshFileResult × SQLiteDocument :=
  if doc.uri.scheme = "untitled" then (.untitledNoop, doc)
  else
    match SQLiteDocument.refresh cfg fs doc with
    | .error e => (.readError e, doc)
    | .ok (doc', _) =>
      match doc'.documentData with
      | some data =>
        let t := getTransferables doc' data
        (.payload ⟨t.filename, t.value, t.walValue, false,
                   getConfiguredMaxFileSize cfg⟩, doc')
      | none => (.thrown TooLargeErrorMsg, doc')

/-- One `remote.forceUpdate(...)` message sent to a panel during the
content-change fan-out. -/
structure ForceUpdateCall where
  panel : Nat
  filename : Option String
  value : Bytes
  walValue : Option Bytes
deriving DecidableEq, Repr

/-- Embedding of the `onDidChangeContent` listener installed by
`openCustomDocument`: for each panel registered under the document's URI,
skip if `document.documentData` is null, otherwise look up the panel's
Comlink remote (`hasRemote`) and, when present, send one `forceUpdate` with
the transferables. -/
def contentChangeFanOut (st : Registry) (hasRemote : Nat → Bool)
    (doc : SQLiteDocument) : List ForceUpdateCall :=
  (webviewsGet st doc.uri).filterMap fun p =>
    match doc.documentData with
    | none => none
    | some data =>
      if hasRemote p then
        let t := getTransferables doc data
        some ⟨p, t.filename, t.value, t.walValue⟩
      else none

/-- Embedding of a refresh followed by the listener reaction: `refresh`
replaces the document data and, exactly when it fired `onDidChangeContent`,
the listener fans `forceUpdate` out to the registered panels. -/
def refreshAndFanOut (cfg : MaxFileSizeConfig) (fs : FS) (st : Registry)
    (hasRemote : Nat → Bool) (doc : SQLiteDocument) :
    Except String (SQLiteDocument × List ForceUpdateCall) :=
  (SQLiteDocument.refresh cfg fs doc).map fun r =>
    (r.1, match r.2 with
          | some _ => contentChangeFanOut st hasRemote r.1
          | none => [])

/-- The registry operations the editor provider performs on a
`WebviewCollection`: `resolveCustomEditor` adds a `(uri, panel)` entry, and a
panel's `onDidDispose` deletes every entry that was added for it (`get` and
`has` are pure and do not change the state). -/
inductive WvOp
  /-- `webviews.add(document.uri, webviewPanel)` with `resource =
  uri.toString()`. -/
  | add (resource : String) (panel : Nat)
  /-- The panel's dispose event firing the deletion callbacks registered by
  `add`. -/
  | disposePanel (panel : Nat)
deriving DecidableEq, Repr

/-- One step of the registry: `add` inserts the entry into the set,
`disposePanel` removes the entries registered for that panel. -/
def wvStep (st : Registry) : WvOp → Registry
  | .add resource panel => st ++ [(resource, panel)]
  | .disposePanel panel => st.filter (fun e => e.2 ≠ panel)

/-- Runs a sequence of registry operations from a starting state. -/
def wvRun (st : Registry) (ops : List WvOp) : Registry :=
  ops.foldl wvStep st

/-- Whether an operation is an `add` of the given panel. -/
def isAddOfPanel (p : Nat) : WvOp → Bool
  | .add _ panel => panel == p
  | .disposePanel _ => false

namespace SQLiteDocument

/-- Embedding of `SQLiteDocument.saveAs`: fetch the delegate's file data,
then return before writing when cancellation is already requested. The result
is the file system afterwards together with the writes performed. -/
def saveAs (delegateData : Bytes) (cancelled : Bool) (fs : FS)
    (targetResource : Uri) : FS × List (String × Bytes) :=
  if cancelled then (fs, [])
  else (writeFS fs (toStringU targetResource) delegateData,
        [(toStringU targetResource, delegateData)])

/-- The `vsc.CustomDocumentBackup` returned by `backup`, with the file system
it leaves behind. -/
structure BackupResult where
  id : String
  fs : FS
  writes : List (String × Bytes)

/-- Embedding of `SQLiteDocument.backup`: `saveAs(destination, cancellation)`
followed by returning `{ id: destination.toString(), ... }`. -/
def backup (delegateData : Bytes) (cancelled : Bool) (fs : FS)
    (destination : Uri) : BackupResult :=
  let s := saveAs delegateData cancelled fs destination
  ⟨toStringU destination, s.1, s.2⟩

end SQLiteDocument

/-- The effects `VscodeFns.downloadBlob` performs, in order. -/
inductive DlEffect
  /-- `vsc.workspace.fs.writeFile(dlUri, data)`. -/
  | write (uri : Uri) (data : Bytes)
  /-- `vsc.commands.executeCommand('vscode.open', dlUri)`. -/
  | openCmd (uri : Uri)
deriving DecidableEq, Repr

/-- Embedding of `VscodeFns.downloadBlob(data, download, metaKey)`: write the
bytes to `Uri.parse(dirname + '/' + download)` and, unless `metaKey` is set,
open the written file (an absent `dirname` group interpolates as the string
`undefined`, as in JavaScript). -/
def downloadBlob (doc : SQLiteDocument) (data : Bytes) (download : String)
    (metaKey : Bool) : List DlEffect :=
  let dirname := match (uriParts doc.uri).dirname with
    | some d => d
    | none => "undefined"
  let dlUri := parseU (dirname ++ "/" ++ download)
  [.write dlUri data] ++ (if metaKey then [] else [.openCmd dlUri])

/-- The abstract argument and result types of the worker interface (one
result type per method; a result stands for the promise the call returns). -/
structure WorkerTypes : Type 1 where
  Stream : Type
  Params : Type
  DbOpts : Type
  Sig : Type
  RowId : Type
  RowIds : Type
  InitOpts : Type
  RWasm : Type
  RInitStream : Type
  RInitBuffer : Type
  RGroups : Type
  RCount : Type
  RIds : Type
  RPage : Type
  RRow : Type
  RRows : Type
  RBlob : Type
  RExport : Type
  RClose : Type

/-- Abstract model of the `workerDB` Comlink remote: one field per method of
the worker interface the host forwards. -/
structure WorkerDB (T : WorkerTypes) where
  setSqliteWasmPath : String → T.RWasm
  initStream : String → T.Stream → Nat → Option Bytes → T.RInitStream
  initBuffer : String → Bytes → Option Bytes → Option T.InitOpts → T.RInitBuffer
  getTableGroups : String → T.RGroups
  getCount : T.Params → T.DbOpts → T.Sig → T.RCount
  getIdsFromToIndex : T.Params → Nat → Nat → T.DbOpts → T.Sig → T.RIds
  getPage : T.Params → T.DbOpts → T.Sig → T.RPage
  getByRowId : T.Params → T.RowId → T.DbOpts → T.Sig → T.RRow
  getByRowIds : T.Params → T.RowIds → T.DbOpts → T.Sig → T.RRows
  getBlob : T.Params → String → String → T.Sig → T.RBlob
  exportDb : String → T.RExport
  close : String → T.RClose

/-- The worker-forwarding face of `VscodeFns`: it holds the `workerDB`
remote; each read-style method below is the embedding of the same-named
method body from the source. -/
structure VscodeFns (T : WorkerTypes) where
  workerDB : WorkerDB T

namespace VscodeFns

variable {T : WorkerTypes}

/-- `return this.workerDB.setSqliteWasmPath(path)`. -/
def setSqliteWasmPath (self : VscodeFns T) (path : String) : T.RWasm :=
  self.workerDB.setSqliteWasmPath path

/-- `return this.workerDB.initStream(filename, stream, fileSize, walData)`. -/
def initStream (self : VscodeFns T) (filename : String) (stream : T.Stream)
    (fileSize : Nat) (walData : Option Bytes) : T.RInitStream :=
  self.workerDB.initStream filename stream fileSize walData

/-- `return this.workerDB.initBuffer(filename, data, walData, opts)`. -/
def initBuffer (self : VscodeFns T) (filename : String) (data : Bytes)
    (walData : Option Bytes) (opts : Option T.InitOpts) : T.RInitBuffer :=
  self.workerDB.initBuffer filename data walData opts

/-- `return this.workerDB.getTableGroups(filename)`. -/
def getTableGroups (self : VscodeFns T) (filename : String) : T.RGroups :=
  self.workerDB.getTableGroups filename

/-- `return this.workerDB.getCount(params, opts, signal)`. -/
def getCount (self : VscodeFns T) (params : T.Params) (opts : T.DbOpts)
    (signal : T.Sig) : T.RCount :=
  self.workerDB.getCount params opts signal

/-- `return this.workerDB.getIdsFromToIndex(params, start, end, opts, signal)`. -/
def getIdsFromToIndex (self : VscodeFns T) (params : T.Params)
    (start stop : Nat) (opts : T.DbOpts) (signal : T.Sig) : T.RIds :=
  self.workerDB.getIdsFromToIndex params start stop opts signal

/-- `return this.workerDB.getPage(params, opts, signal)`. -/
def getPage (self : VscodeFns T) (params : T.Params) (opts : T.DbOpts)
    (signal : T.Sig) : T.RPage :=
  self.workerDB.getPage params opts signal

/-- `return this.workerDB.getByRowId(params, rowId, opts, signal)`. -/
def getByRowId (self : VscodeFns T) (params : T.Params) (rowId : T.RowId)
    (opts : T.DbOpts) (signal : T.Sig) : T.RRow :=
  self.workerDB.getByRowId params rowId opts signal

/-- `return this.workerDB.getByRowIds(params, rowIds, opts, signal)`. -/
def getByRowIds (self : VscodeFns T) (params : T.Params) (rowIds : T.RowIds)
    (opts : T.DbOpts) (signal : T.Sig) : T.RRows :=
  self.workerDB.getByRowIds params rowIds opts signal

/-- `return this.workerDB.getBlob(params, rowId, colName, signal)`. -/
def getBlob (self : VscodeFns T) (params : T.Params) (rowId colName : String)
    (signal : T.Sig) : T.RBlob :=
  self.workerDB.getBlob params rowId colName signal

/-- `return this.workerDB.exportDb(filename)`. -/
def exportDb (self : VscodeFns T) (filename : String) : T.RExport :=
  self.workerDB.exportDb filename

/-- `return this.workerDB.close(filename)`. -/
def close (self : VscodeFns T) (filename : String) : T.RClose :=
  self.workerDB.close filename

end VscodeFns

/-- A decoded JWT payload, as far as `refreshAccessToken` inspects it:
whether the `ent` key is present (`'ent' in payload`), and the optional
`iat` claim in seconds. -/
structure JwtPayload where
  hasEnt : Bool
  iat : Option ℚ
deriving DecidableEq

/-- Which way `refreshAccessToken` resolves. -/
inductive RefreshAction
  /-- The stored access token is returned without contacting the service. -/
  | returnExisting
  /-- A POST to the `/api/refresh` endpoint is issued. -/
  | refreshEndpoint
  /-- A POST to the `/api/register` endpoint is issued. -/
  | registerEndpoint
  /-- The try-block threw before any fetch (for instance `jose.decodeJwt`
  failed), so the function throws the no-response error. -/
  | serviceError
deriving DecidableEq, Repr

/-- Embedding of `calcDaysSinceIssued`: `(Date.now() / 1000 - issuedAt) /
(24 * 60 * 60)`, with `now` given in seconds. -/
def calcDaysSinceIssued (now issuedAt : ℚ) : ℚ :=
  (now - issuedAt) / (24 * 60 * 60)

/-- Embedding of `refreshAccessToken`, reduced to which endpoint it contacts
(or that it returns the stored token untouched). `decode` models
`jose.decodeJwt`, `none` meaning it throws. JavaScript truthiness is kept:
the chain `accessToken && payload?.iat && calcDaysSinceIssued(payload.iat)`
is falsy when the token is the empty string, when `iat` is absent or `0`,
and when the computed day count is exactly `0`. -/
def refreshAccessToken (now : ℚ) (accessToken : Option String)
    (decode : String → Option JwtPayload) : RefreshAction :=
  match accessToken with
  | none => .registerEndpoint
  | some tok =>
    match decode tok with
    | none => .serviceError
    | some payload =>
      if payload.hasEnt then .returnExisting
      else
        let days? : Option ℚ :=
          if tok ≠ "" then
            payload.iat.bind fun i =>
              if i ≠ 0 then some (calcDaysSinceIssued now i) else none
          else none
        match days? with
        | none => .registerEndpoint
        | some d =>
          if d = 0 then .registerEndpoint
          else if d > 14 then .registerEndpoint
          else if d > 1 then .refreshEndpoint
          else .returnExisting

/-- Concrete file system fixture: one database file just over a 1 MB ceiling. -/
def bigFileFS : FS :=
  fun k => if k = "file:///a/b.db" then some (List.replicate (2 ^ 20 + 1) 0) else none

/-- Concrete file system fixture: one small database file. -/
def smallFileFS : FS :=
  fun k => if k = "file:///a/b.db" then some [7, 7] else none

/-- Concrete registry fixture: panel 1 shows the database, panel 2 shows an
unrelated document. -/
def twoPanelRegistry : Registry :=
  [("file:///a/b.db", 1), ("file:///z/y.db", 2)]

/-!
Theorems: one per claim, checking the specification against the embedding.
-/

/-- C1: for every document whose file size exceeds the configured maximum
(the configured `sqliteViewer.maxFileSize` in megabytes times `2 ^ 20`,
defaulting to 200 MB, when that maximum is nonzero), importing fails:
`SQLiteDocument.readFile` returns null data, and both `getInitialData` and
`refreshFile` throw the specific `File too large` error instead of ever
returning a payload to the webview's import path. -/
theorem C1_too_large_rejected (cfg : MaxFileSizeConfig) (fs : FS) (uri : Uri)
    (content : Bytes)
    (hscheme : uri.scheme ≠ "untitled")
    (hfs : fs (toStringU uri) = some content)
    (hmax : getConfiguredMaxFileSize cfg ≠ 0)
    (hsize : content.length > getConfiguredMaxFileSize cfg) :
    SQLiteDocument.readFile cfg fs uri = .ok (none, none) ∧
    ∀ doc st, SQLiteDocument.create cfg fs uri none = .ok doc →
      webviewsHas st doc.uri = true →
      getInitialData st cfg doc = .thrown TooLargeErrorMsg ∧
      (refreshFile cfg fs doc).1 = .thrown TooLargeErrorMsg := by
  have hread : SQLiteDocument.readFile cfg fs uri = .ok (none, none) := by
    simp [SQLiteDocument.readFile, hscheme, hfs, hmax, hsize]
  refine ⟨hread, ?_⟩
  intro doc st hdoc hhas
  have hdoc' : doc = ⟨uri, none, none⟩ := by
    simp [SQLiteDocument.create, hread, Except.map] at hdoc
    exact hdoc.symm
  subst hdoc'
  constructor
  · simp [getInitialData, hhas, hscheme]
  · simp [refreshFile, SQLiteDocument.refresh, hread, Except.map, hscheme]

/-- C1 witness: a 1 MB ceiling with a file one byte over it. -/
theorem C1_too_large_rejected_witness :
    SQLiteDocument.readFile (some 1) bigFileFS ⟨"file", "/a/b.db"⟩ =
      .ok (none, none) ∧
    ∀ doc st,
      SQLiteDocument.create (some 1) bigFileFS ⟨"file", "/a/b.db"⟩ none = .ok doc →
      webviewsHas st doc.uri = true →
      getInitialData st (some 1) doc = .thrown TooLargeErrorMsg ∧
      (refreshFile (some 1) bigFileFS doc).1 = .thrown TooLargeErrorMsg :=
  C1_too_large_rejected (some 1) bigFileFS ⟨"file", "/a/b.db"⟩
    (List.replicate (2 ^ 20 + 1) 0)
    (by decide)
    (if_pos rfl)
    (by norm_num [getConfiguredMaxFileSize])
    (by rw [List.length_replicate]; norm_num [getConfiguredMaxFileSize])

/-- C9: if the configured `sqliteViewer.maxFileSize` setting is `0`, the
size-limit rejection branch of `SQLiteDocument.readFile` is unreachable: for
a file of any size (and any non-untitled URI), `readFile` reads and returns
the full file contents rather than null. -/
theorem C9_zero_ceiling_reads_everything (fs : FS) (uri : Uri) (content : Bytes)
    (hscheme : uri.scheme ≠ "untitled")
    (hfs : fs (toStringU uri) = some content) :
    SQLiteDocument.readFile (some 0) fs uri =
      .ok (some content,
           fs (toStringU { uri with path := uri.path ++ "-wal" })) := by
  simp [SQLiteDocument.readFile, hscheme, hfs, getConfiguredMaxFileSize]

/-- C9 witness: a zero ceiling reads the file contents in full. -/
theorem C9_zero_ceiling_reads_everything_witness :
    SQLiteDocument.readFile (some 0) smallFileFS ⟨"file", "/a/b.db"⟩ =
      .ok (some [7, 7], none) := by
  have h := C9_zero_ceiling_reads_everything smallFileFS ⟨"file", "/a/b.db"⟩
    [7, 7] (by decide) (by simp [smallFileFS, toStringU])
  simpa [smallFileFS, toStringU] using h

/-- C10: saveAs is atomic with respect to cancellation: when the cancellation
token is already requested at its check (after the delegate supplied the file
data), `saveAs` performs no file-system write and leaves the file system, in
particular the target resource, unchanged. -/
theorem C10_saveAs_cancellation_atomic (delegateData : Bytes) (fs : FS)
    (target : Uri) :
    SQLiteDocument.saveAs delegateData true fs target = (fs, []) := rfl

/-- C3: every read-style method of the host facade returns exactly the result
of invoking the same-named method on the worker proxy with the same
arguments, unmodified. -/
theorem C3_facade_forwards (T : WorkerTypes) (f : VscodeFns T) :
    (∀ path, f.setSqliteWasmPath path = f.workerDB.setSqliteWasmPath path) ∧
    (∀ filename stream fileSize walData,
      f.initStream filename stream fileSize walData =
        f.workerDB.initStream filename stream fileSize walData) ∧
    (∀ filename data walData opts,
      f.initBuffer filename data walData opts =
        f.workerDB.initBuffer filename data walData opts) ∧
    (∀ filename, f.getTableGroups filename =
        f.workerDB.getTableGroups filename) ∧
    (∀ params opts signal, f.getCount params opts signal =
        f.workerDB.getCount params opts signal) ∧
    (∀ params start stop opts signal,
      f.getIdsFromToIndex params start stop opts signal =
        f.workerDB.getIdsFromToIndex params start stop opts signal) ∧
    (∀ params opts signal, f.getPage params opts signal =
        f.workerDB.getPage params opts signal) ∧
    (∀ params rowId opts signal, f.getByRowId params rowId opts signal =
        f.workerDB.getByRowId params rowId opts signal) ∧
    (∀ params rowIds opts signal, f.getByRowIds params rowIds opts signal =
        f.workerDB.getByRowIds params rowIds opts signal) ∧
    (∀ params rowId colName signal, f.getBlob params rowId colName signal =
        f.workerDB.getBlob params rowId colName signal) ∧
    (∀ filename, f.exportDb filename = f.workerDB.exportDb filename) ∧
    (∀ filename, f.close filename = f.workerDB.close filename) :=
  ⟨fun _ => rfl, fun _ _ _ _ => rfl, fun _ _ _ _ => rfl, fun _ => rfl,
   fun _ _ _ => rfl, fun _ _ _ _ _ => rfl, fun _ _ _ => rfl,
   fun _ _ _ _ => rfl, fun _ _ _ _ => rfl, fun _ _ _ _ => rfl,
   fun _ => rfl, fun _ => rfl⟩

/-- A refresh that read data characterizes the fan-out: the document data is
replaced and every registered panel with a remote gets the transferables. -/
theorem refreshAndFanOut_eq (cfg : MaxFileSizeConfig) (fs : FS) (st : Registry)
    (hasRemote : Nat → Bool) (doc : SQLiteDocument) (data : Bytes)
    (wal : Option Bytes)
    (hread : SQLiteDocument.readFile cfg fs doc.uri = .ok (some data, wal)) :
    refreshAndFanOut cfg fs st hasRemote doc =
      .ok ({ doc with documentData := some data, walData := wal },
           (webviewsGet st doc.uri).filterMap fun q =>
             if hasRemote q then
               some ⟨q, (uriParts doc.uri).filename, data, wal⟩
             else none) := by
  simp [refreshAndFanOut, SQLiteDocument.refresh, hread, Except.map,
        contentChangeFanOut, getTransferables]

/-- Counting the fan-out calls that target a given panel. -/
theorem fanout_countP (hasRemote : Nat → Bool) (fn : Option String)
    (data : Bytes) (wal : Option Bytes) (x : Nat) (l : List Nat) :
    ((l.filterMap fun q =>
        if hasRemote q then
          some (⟨q, fn, data, wal⟩ : ForceUpdateCall)
        else none).countP (fun c => c.panel == x)) =
      if hasRemote x then l.count x else 0 := by
  induction l with
  | nil => simp
  | cons a l ih =>
    by_cases hax : a = x
    · subst hax
      by_cases ha : hasRemote a <;>
        simp [List.filterMap_cons, ha, List.countP_cons, List.count_cons, ih]
    · by_cases ha : hasRemote a <;>
        simp [List.filterMap_cons, ha, List.countP_cons, List.count_cons, ih,
              hax, Ne.symm hax]

/-- Counting a panel inside `webviewsGet` counts registry entries. -/
theorem webviewsGet_count (st : Registry) (uri : Uri) (p : Nat) :
    (webviewsGet st uri).count p =
      st.countP (fun e => e.1 == toStringU uri && e.2 == p) := by
  unfold webviewsGet
  induction st with
  | nil => simp
  | cons a st ih =>
    by_cases h1 : a.1 = toStringU uri <;> by_cases h2 : a.2 = p <;>
      simp [List.filter_cons, h1, h2, List.countP_cons, List.count_cons, ih]

/-- C2: when a document's content-change event fires after a refresh that
read non-null data from disk, every webview panel registered (with a live
remote) for that document's URI receives exactly one `forceUpdate` call
carrying the document's filename and data buffer; panels registered only
under other URIs receive none. -/
theorem C2_fanout_exactly_once (cfg : MaxFileSizeConfig) (fs : FS)
    (st : Registry) (hasRemote : Nat → Bool) (doc doc' : SQLiteDocument)
    (data : Bytes) (wal : Option Bytes) (calls : List ForceUpdateCall) (p : Nat)
    (hread : SQLiteDocument.readFile cfg fs doc.uri = .ok (some data, wal))
    (hrun : refreshAndFanOut cfg fs st hasRemote doc = .ok (doc', calls))
    (hremote : hasRemote p = true)
    (hp : (st.filter (fun e => e.2 == p)).map Prod.fst = [toStringU doc.uri]) :
    calls.countP (fun c => c.panel == p) = 1 ∧
    (∀ c ∈ calls, c = ⟨c.panel, (uriParts doc.uri).filename, data, wal⟩) ∧
    (∀ q, (∀ e ∈ st, e.2 = q → e.1 ≠ toStringU doc.uri) →
      calls.countP (fun c => c.panel == q) = 0) := by
  rw [refreshAndFanOut_eq cfg fs st hasRemote doc data wal hread] at hrun
  simp only [Except.ok.injEq, Prod.mk.injEq] at hrun
  obtain ⟨-, hcalls⟩ := hrun
  subst hcalls
  obtain ⟨a, ha⟩ : ∃ a, st.filter (fun e => e.2 == p) = [a] :=
    List.length_eq_one.mp
      (by rw [← List.length_map (st.filter (fun e => e.2 == p)) Prod.fst, hp]
          rfl)
  have ha1 : a.1 = toStringU doc.uri := by
    rw [ha] at hp
    simpa using hp
  refine ⟨?_, ?_, ?_⟩
  · rw [fanout_countP, if_pos hremote, webviewsGet_count,
        ← List.countP_filter (fun e => e.1 == toStringU doc.uri)
          (fun e => e.2 == p) st, ha]
    simp [ha1]
  · intro c hc
    rw [List.mem_filterMap] at hc
    obtain ⟨b, -, hb⟩ := hc
    by_cases hbr : hasRemote b
    · rw [if_pos hbr] at hb
      cases hb
      rfl
    · rw [if_neg hbr] at hb
      cases hb
  · intro q hq
    have hz : st.countP (fun e => e.1 == toStringU doc.uri && e.2 == q) = 0 := by
      rw [List.countP_eq_zero]
      intro e he
      simp only [Bool.and_eq_true, beq_iff_eq, not_and]
      intro h1 h2
      exact hq e he h2 h1
    rw [fanout_countP, webviewsGet_count, hz]
    cases hasRemote q <;> simp

/-- C2 witness: two panels on two documents; a refresh of the first document
sends exactly one `forceUpdate` to panel 1 and none to panel 2. -/
theorem C2_fanout_exactly_once_witness :
    let doc : SQLiteDocument := ⟨⟨"file", "/a/b.db"⟩, none, none⟩
    let calls : List ForceUpdateCall := [⟨1, some "b.db", [7, 7], none⟩]
    calls.countP (fun c => c.panel == 1) = 1 ∧
    (∀ c ∈ calls, c = ⟨c.panel, (uriParts doc.uri).filename, [7, 7], none⟩) ∧
    (∀ q, (∀ e ∈ twoPanelRegistry, e.2 = q → e.1 ≠ toStringU doc.uri) →
      calls.countP (fun c => c.panel == q) = 0) := by
  intro doc calls
  exact C2_fanout_exactly_once none smallFileFS twoPanelRegistry
    (fun _ => true) doc ⟨⟨"file", "/a/b.db"⟩, some [7, 7], none⟩ [7, 7] none calls 1
    rfl rfl rfl (by decide)

/-- Running registry operations can only grow a panel's entry count by its
`add` operations. -/
theorem wvRun_countP_le (p : Nat) (ops : List WvOp) (st : Registry) :
    (wvRun st ops).countP (fun e => e.2 == p) ≤
      st.countP (fun e => e.2 == p) + ops.countP (isAddOfPanel p) := by
  induction ops generalizing st with
  | nil => simp [wvRun]
  | cons op ops ih =>
    cases op with
    | add r q =>
      have h := ih (st ++ [(r, q)])
      have hrw : wvRun st (WvOp.add r q :: ops) = wvRun (st ++ [(r, q)]) ops := rfl
      rw [hrw]
      refine le_trans h ?_
      rw [List.countP_append, List.countP_cons]
      simp only [isAddOfPanel, List.countP_cons, List.countP_nil]
      omega
    | disposePanel q =>
      have h := ih (st.filter (fun e => e.2 ≠ q))
      have hrw : wvRun st (WvOp.disposePanel q :: ops) =
          wvRun (st.filter (fun e => e.2 ≠ q)) ops := rfl
      rw [hrw]
      refine le_trans h ?_
      have hle : (st.filter (fun e => e.2 ≠ q)).countP (fun e => e.2 == p) ≤
          st.countP (fun e => e.2 == p) := by
        rw [List.countP_filter]
        exact List.countP_mono_left (by intro a _ ha; simp_all)
      simp only [isAddOfPanel, List.countP_cons]
      omega

/-- C4: in every state of the webview registry reachable by the operations
the editor provider performs — provided each panel handle is added at most
once, as the one-`resolveCustomEditor`-call-per-panel host contract
guarantees — each webview panel appears in at most one registry entry. -/
theorem C4_panel_in_at_most_one_entry (ops : List WvOp)
    (hdist : ∀ p, ops.countP (isAddOfPanel p) ≤ 1) :
    ∀ p, (wvRun [] ops).countP (fun e => e.2 == p) ≤ 1 := by
  intro p
  have h := wvRun_countP_le p ops []
  simp only [List.countP_nil, Nat.zero_add] at h
  exact le_trans h (hdist p)

/-- C4 witness: two panels added under different documents, one disposed;
panel 2 appears in at most one entry. -/
theorem C4_panel_in_at_most_one_entry_witness :
    ((wvRun []
      [WvOp.add "file:///a/b.db" 1, WvOp.add "file:///z/y.db" 2,
       WvOp.disposePanel 1]).countP (fun e => e.2 == 2)) ≤ 1 :=
  C4_panel_in_at_most_one_entry _ (by
    intro p
    by_cases h1 : (1 : Nat) = p <;> by_cases h2 : (2 : Nat) = p <;>
      simp [isAddOfPanel, List.countP_cons, h1, h2] <;> omega) 2

/-- If a state has no entries for a panel and the remaining operations never
add it, no reachable state has entries for it. -/
theorem wvRun_no_panel (p : Nat) (ops : List WvOp) (st : Registry)
    (hst : ∀ e ∈ st, e.2 ≠ p)
    (hops : ∀ r, WvOp.add r p ∉ ops) :
    ∀ e ∈ wvRun st ops, e.2 ≠ p := by
  induction ops generalizing st with
  | nil => simpa [wvRun] using hst
  | cons op ops ih =>
    cases op with
    | add r q =>
      have hq : q ≠ p := by
        intro hqp
        exact hops r (by rw [hqp]; exact List.mem_cons_self _ _)
      refine ih (st ++ [(r, q)]) ?_ ?_
      · intro e he
        rcases List.mem_append.mp he with h | h
        · exact hst e h
        · rcases List.mem_singleton.mp h with rfl
          exact hq
      · intro r' hr'
        exact hops r' (List.mem_cons_of_mem _ hr')
    | disposePanel q =>
      refine ih (st.filter (fun e => e.2 ≠ q)) ?_ ?_
      · intro e he
        exact hst e (List.mem_of_mem_filter he)
      · intro r' hr'
        exact hops r' (List.mem_cons_of_mem _ hr')

/-- C5: after a panel's dispose event has fired, the entries registered for
it are removed: from then on (as long as the panel is not re-added, which the
host never does with a disposed panel) `get(uri)` never yields that panel for
any URI. -/
theorem C5_disposed_panel_never_yielded (ops1 ops2 : List WvOp) (p : Nat)
    (h : ∀ r, WvOp.add r p ∉ ops2) :
    ∀ uri, p ∉ webviewsGet
      (wvRun [] (ops1 ++ WvOp.disposePanel p :: ops2)) uri := by
  intro uri hmem
  have hrw : wvRun [] (ops1 ++ WvOp.disposePanel p :: ops2) =
      wvRun ((wvRun [] ops1).filter (fun e => e.2 ≠ p)) ops2 := by
    unfold wvRun
    rw [List.foldl_append]
    rfl
  have hall := wvRun_no_panel p ops2
    ((wvRun [] ops1).filter (fun e => e.2 ≠ p))
    (by
      intro e he
      have := List.of_mem_filter he
      simpa using this)
    h
  rw [hrw] at hmem
  unfold webviewsGet at hmem
  rw [List.mem_map] at hmem
  obtain ⟨e, he, hep⟩ := hmem
  exact hall e (List.mem_of_mem_filter he) hep

/-- C5 witness: panel 1 is added and disposed; afterwards `get` on its own
document URI no longer yields it. -/
theorem C5_disposed_panel_never_yielded_witness :
    (1 : Nat) ∉ webviewsGet
      (wvRun [] ([WvOp.add "file:///a/b.db" 1] ++ WvOp.disposePanel 1 ::
        [WvOp.add "file:///z/y.db" 2])) ⟨"file", "/a/b.db"⟩ :=
  C5_disposed_panel_never_yielded [WvOp.add "file:///a/b.db" 1]
    [WvOp.add "file:///z/y.db" 2] 1 (by intro r; simp) ⟨"file", "/a/b.db"⟩

/-- The first `"://"` in `scheme ++ "://" ++ path` sits right after the
scheme as long as the scheme itself contains no colon. -/
theorem splitSchemeAux_append (a b : List Char) (h : ':' ∉ a) :
    splitSchemeAux (a ++ ':' :: '/' :: '/' :: b) = some (a, b) := by
  induction a with
  | nil => simp [splitSchemeAux]
  | cons c a ih =>
    have hc : ¬c = ':' := by
      intro hc
      exact h (hc ▸ List.mem_cons_self _ _)
    have h' : ':' ∉ a := fun hm => h (List.mem_cons_of_mem _ hm)
    simp [splitSchemeAux, hc, ih h']

/-- Parsing the printed form of a URI with a colon-free scheme recovers it. -/
theorem parseU_toStringU (u : Uri) (h : ':' ∉ u.scheme.toList) :
    parseU (toStringU u) = u := by
  have hdata : (toStringU u).toList =
      u.scheme.toList ++ ':' :: '/' :: '/' :: u.path.toList := by
    simp [toStringU, String.toList, String.data_append]
  unfold parseU
  rw [hdata, splitSchemeAux_append _ _ h]
  rfl

/-- C6: backing up and re-creating a document round-trips: `backup` writes
the delegate-supplied current file data to the destination and returns an id
equal to `destination.toString()`; creating a document with that id as
`backupId` reads its initial data from the backup location rather than the
original URI (the file system may hold anything at the original URI), while
the new document's `uri` property equals the originally passed URI. -/
theorem C6_backup_roundtrip (cfg : MaxFileSizeConfig) (fs : FS)
    (uri dest : Uri) (delegateData : Bytes)
    (hcolon : ':' ∉ dest.scheme.toList)
    (hscheme : dest.scheme ≠ "untitled")
    (hsize : getConfiguredMaxFileSize cfg = 0 ∨
      delegateData.length ≤ getConfiguredMaxFileSize cfg) :
    (SQLiteDocument.backup delegateData false fs dest).id = toStringU dest ∧
    (SQLiteDocument.backup delegateData false fs dest).fs (toStringU dest) =
      some delegateData ∧
    ∃ doc, SQLiteDocument.create cfg
        (SQLiteDocument.backup delegateData false fs dest).fs uri
        (some (SQLiteDocument.backup delegateData false fs dest).id) =
          .ok doc ∧
      doc.uri = uri ∧ doc.documentData = some delegateData := by
  have hkey : writeFS fs (toStringU dest) delegateData (toStringU dest) =
      some delegateData := by simp [writeFS]
  have hcond : ¬(getConfiguredMaxFileSize cfg ≠ 0 ∧
      delegateData.length > getConfiguredMaxFileSize cfg) := by
    rcases hsize with h0 | hle
    · simp [h0]
    · rintro ⟨-, hgt⟩
      omega
  have hread : SQLiteDocument.readFile cfg
      (writeFS fs (toStringU dest) delegateData) dest =
      .ok (some delegateData,
           writeFS fs (toStringU dest) delegateData
             (toStringU { dest with path := dest.path ++ "-wal" })) := by
    simp [SQLiteDocument.readFile, hscheme, hkey, hcond]
  refine ⟨rfl, hkey, ?_⟩
  refine ⟨⟨uri, some delegateData,
    writeFS fs (toStringU dest) delegateData
      (toStringU { dest with path := dest.path ++ "-wal" })⟩, ?_, rfl, rfl⟩
  show SQLiteDocument.create cfg (writeFS fs (toStringU dest) delegateData)
      uri (some (toStringU dest)) = _
  simp [SQLiteDocument.create, parseU_toStringU dest hcolon, hread, Except.map]

/-- C6 witness: a small backup written next to an unrelated original file. -/
theorem C6_backup_roundtrip_witness :
    (SQLiteDocument.backup [1, 2, 3] false smallFileFS
      ⟨"file", "/backups/1"⟩).id = toStringU ⟨"file", "/backups/1"⟩ ∧
    (SQLiteDocument.backup [1, 2, 3] false smallFileFS
      ⟨"file", "/backups/1"⟩).fs (toStringU ⟨"file", "/backups/1"⟩) =
      some [1, 2, 3] ∧
    ∃ doc, SQLiteDocument.create none
        (SQLiteDocument.backup [1, 2, 3] false smallFileFS
          ⟨"file", "/backups/1"⟩).fs ⟨"file", "/a/b.db"⟩
        (some (SQLiteDocument.backup [1, 2, 3] false smallFileFS
          ⟨"file", "/backups/1"⟩).id) = .ok doc ∧
      doc.uri = ⟨"file", "/a/b.db"⟩ ∧ doc.documentData = some [1, 2, 3] :=
  C6_backup_roundtrip none smallFileFS ⟨"file", "/a/b.db"⟩
    ⟨"file", "/backups/1"⟩ [1, 2, 3] (by decide) (by decide)
    (Or.inr (by norm_num [getConfiguredMaxFileSize]))

/-- C7 (amended): `refreshAccessToken` applies the 14-day / 1-day cadence:
with a decodable stored token, an `ent` entitlement flag returns the token
untouched; otherwise, writing `d` for the days since `iat`, a nonzero `d` at
most 1 returns the token without contacting the service, `1 < d ≤ 14` calls
the refresh endpoint, and `d > 14`, `d = 0` (the falsy-zero edge), a missing
or zero `iat`, or a missing token calls the registration endpoint. -/
theorem C7_refresh_cadence (now : ℚ) (tok : String)
    (decode : String → Option JwtPayload) (payload : JwtPayload)
    (hdec : decode tok = some payload)
    (hne : tok ≠ "") :
    (payload.hasEnt = true →
      refreshAccessToken now (some tok) decode = .returnExisting) ∧
    (∀ i, payload.hasEnt = false → payload.iat = some i → i ≠ 0 →
      (calcDaysSinceIssued now i ≠ 0 ∧ calcDaysSinceIssued now i ≤ 1 →
        refreshAccessToken now (some tok) decode = .returnExisting) ∧
      (1 < calcDaysSinceIssued now i ∧ calcDaysSinceIssued now i ≤ 14 →
        refreshAccessToken now (some tok) decode = .refreshEndpoint) ∧
      (14 < calcDaysSinceIssued now i ∨ calcDaysSinceIssued now i = 0 →
        refreshAccessToken now (some tok) decode = .registerEndpoint)) ∧
    (payload.hasEnt = false → payload.iat = none ∨ payload.iat = some 0 →
      refreshAccessToken now (some tok) decode = .registerEndpoint) ∧
    (∀ m dec, refreshAccessToken m none dec =
      RefreshAction.registerEndpoint) := by
  refine ⟨?_, ?_, ?_, fun m dec => rfl⟩
  · intro hent
    simp [refreshAccessToken, hdec, hent]
  · intro i hent hiat hi0
    refine ⟨?_, ?_, ?_⟩
    · rintro ⟨hd0, hd1⟩
      have h14 : ¬(14 : ℚ) < calcDaysSinceIssued now i := by linarith
      have h1 : ¬(1 : ℚ) < calcDaysSinceIssued now i := by linarith
      simp [refreshAccessToken, hdec, hent, hne, hiat, hi0, hd0, h14, h1]
    · rintro ⟨hd1, hd14⟩
      have hd0 : calcDaysSinceIssued now i ≠ 0 := by
        intro h0
        rw [h0] at hd1
        norm_num at hd1
      have h14 : ¬(14 : ℚ) < calcDaysSinceIssued now i := by linarith
      simp [refreshAccessToken, hdec, hent, hne, hiat, hi0, hd0, h14, hd1]
    · rintro (hd14 | hd0)
      · have hd0 : calcDaysSinceIssued now i ≠ 0 := by
          intro h0
          rw [h0] at hd14
          norm_num at hd14
        simp [refreshAccessToken, hdec, hent, hne, hiat, hi0, hd0, hd14]
      · simp [refreshAccessToken, hdec, hent, hne, hiat, hi0, hd0]
  · intro hent hiat
    rcases hiat with h | h <;> simp [refreshAccessToken, hdec, hent, hne, h]

/-- C7 witness: a token issued 100000 seconds (about 1.16 days) before now. -/
theorem C7_refresh_cadence_witness :
    ((⟨false, some 100000⟩ : JwtPayload).hasEnt = true →
      refreshAccessToken 200000 (some "t")
        (fun _ => some ⟨false, some 100000⟩) = .returnExisting) ∧
    (∀ i, (⟨false, some 100000⟩ : JwtPayload).hasEnt = false →
      (⟨false, some 100000⟩ : JwtPayload).iat = some i → i ≠ 0 →
      (calcDaysSinceIssued 200000 i ≠ 0 ∧ calcDaysSinceIssued 200000 i ≤ 1 →
        refreshAccessToken 200000 (some "t")
          (fun _ => some ⟨false, some 100000⟩) = .returnExisting) ∧
      (1 < calcDaysSinceIssued 200000 i ∧ calcDaysSinceIssued 200000 i ≤ 14 →
        refreshAccessToken 200000 (some "t")
          (fun _ => some ⟨false, some 100000⟩) = .refreshEndpoint) ∧
      (14 < calcDaysSinceIssued 200000 i ∨ calcDaysSinceIssued 200000 i = 0 →
        refreshAccessToken 200000 (some "t")
          (fun _ => some ⟨false, some 100000⟩) = .registerEndpoint)) ∧
    ((⟨false, some 100000⟩ : JwtPayload).hasEnt = false →
      (⟨false, some 100000⟩ : JwtPayload).iat = none ∨
        (⟨false, some 100000⟩ : JwtPayload).iat = some 0 →
      refreshAccessToken 200000 (some "t")
        (fun _ => some ⟨false, some 100000⟩) = .registerEndpoint) ∧
    (∀ m dec, refreshAccessToken m none dec =
      RefreshAction.registerEndpoint) :=
  C7_refresh_cadence 200000 "t" (fun _ => some ⟨false, some 100000⟩)
    ⟨false, some 100000⟩ rfl (by decide)

/-- C7 counterexample to the claim as stated: a token issued exactly at
`now` is at most 1 day old and carries no `ent` flag, yet the function calls
the registration endpoint instead of returning the stored token — the zero
day count is falsy in `!daysSinceIssued || daysSinceIssued > 14`. -/
theorem C7_zero_age_counterexample :
    calcDaysSinceIssued 100000 100000 ≤ 1 ∧
    (fun _ => some (⟨false, some 100000⟩ : JwtPayload)) "t" =
      some ⟨false, some 100000⟩ ∧
    refreshAccessToken 100000 (some "t")
      (fun _ => some ⟨false, some 100000⟩) = .registerEndpoint ∧
    refreshAccessToken 100000 (some "t")
      (fun _ => some ⟨false, some 100000⟩) ≠ .returnExisting := by
  have hd : calcDaysSinceIssued 100000 100000 = 0 := by
    norm_num [calcDaysSinceIssued]
  have hr : refreshAccessToken 100000 (some "t")
      (fun _ => some (⟨false, some 100000⟩ : JwtPayload)) =
      .registerEndpoint := by
    simp [refreshAccessToken, hd]
  exact ⟨by norm_num [hd], rfl, hr, by rw [hr]; intro h; cases h⟩

/-- C8: `downloadBlob(data, download, metaKey)` writes the bytes to the URI
formed by joining the document's directory name with the suggested file
name, and opens the written file if and only if `metaKey` is not set. -/
theorem C8_downloadBlob_writes_and_opens (doc : SQLiteDocument) (data : Bytes)
    (download : String) (metaKey : Bool) (d : String)
    (hdir : (uriParts doc.uri).dirname = some d) :
    downloadBlob doc data download metaKey =
      [DlEffect.write (parseU (d ++ "/" ++ download)) data] ++
        (if metaKey then []
         else [DlEffect.openCmd (parseU (d ++ "/" ++ download))]) ∧
    (DlEffect.openCmd (parseU (d ++ "/" ++ download)) ∈
        downloadBlob doc data download metaKey ↔ metaKey = false) := by
  have h1 : downloadBlob doc data download metaKey =
      [DlEffect.write (parseU (d ++ "/" ++ download)) data] ++
        (if metaKey then []
         else [DlEffect.openCmd (parseU (d ++ "/" ++ download))]) := by
    simp [downloadBlob, hdir]
  refine ⟨h1, ?_⟩
  rw [h1]
  cases metaKey <;> simp

/-- C8 witness: a download next to the opened database, in both the opening
and the non-opening mode. -/
theorem C8_downloadBlob_writes_and_opens_witness :
    (downloadBlob ⟨⟨"file", "/a/b.db"⟩, some [7, 7], none⟩ [9] "out.csv" true =
      [DlEffect.write (parseU ("file:///a" ++ "/" ++ "out.csv")) [9]] ++
        (if true then []
         else [DlEffect.openCmd (parseU ("file:///a" ++ "/" ++ "out.csv"))]) ∧
     (DlEffect.openCmd (parseU ("file:///a" ++ "/" ++ "out.csv")) ∈
        downloadBlob ⟨⟨"file", "/a/b.db"⟩, some [7, 7], none⟩ [9] "out.csv"
          true ↔ true = false)) :=
  C8_downloadBlob_writes_and_opens ⟨⟨"file", "/a/b.db"⟩, some [7, 7], none⟩
    [9] "out.csv" true "file:///a" (by decide)

end SqliteViewer
